import Mathlib

/-!
Verification development for the eap-converter-service repository
(document-conversion API: Express server, Bull queues over Redis,
MinIO object storage, Gotenberg conversion engine).

The definitions below are a shallow embedding of the TypeScript source:
`src/services/queueService.ts` (Job Ledger / Queue Dispatcher),
`src/services/storageService.ts` (Object Store Adapter),
`src/services/conversionService.ts` (Conversion Gateway),
`src/worker.ts` (worker loop) and `src/server.ts` (API surface).
-/

/-- Job status enum, from `JobStatus.status` in src/types/index.ts. -/
inductive JStatus
  | queued
  | processing
  | completed
  | failed
deriving DecidableEq

/-- Target format, from `JobStatus.format` in src/types/index.ts. -/
inductive JFormat
  | pdf
  | png
deriving DecidableEq

/-- Aggregate batch status, from `BatchStatus.status` in src/types/index.ts.
`someFailed` models the source's string value "partial" (at least one member
failed); the name differs from the source only because of Lean keywords. -/
inductive BStatus
  | queued
  | processing
  | completed
  | someFailed
  | failed
deriving DecidableEq

/-- A stored job record, i.e. the JSON object held under a `job:status:<id>`
Redis key.  Every field is optional because the writes go through
`Partial<JobStatus>` patches (src/types/index.ts `JobStatus`); the stored
JSON contains exactly the fields of the last patch plus `updatedAt`. -/
structure JobRecord where
  jobId : Option String := none
  batchId : Option String := none
  status : Option JStatus := none
  originalName : Option String := none
  format : Option JFormat := none
  progress : Option Nat := none
  createdAt : Option String := none
  updatedAt : Option String := none
  completedAt : Option String := none
  failedAt : Option String := none
  resultPath : Option String := none
  downloadUrl : Option String := none
  contentType : Option String := none
  filename : Option String := none
  fileCount : Option Nat := none
  error : Option String := none
deriving DecidableEq

/-- Association-list update (models writing a Redis key). -/
def setKV {α : Type} : List (String × α) → String → α → List (String × α)
  | [], k, v => [(k, v)]
  | (k', v') :: t, k, v => if k' = k then (k, v) :: t else (k', v') :: setKV t k v

/-- Association-list lookup (models reading a Redis key). -/
def getKV {α : Type} : List (String × α) → String → Option α
  | [], _ => none
  | (k', v') :: t, k => if k' = k then some v' else getKV t k

/-- A Redis string entry: the stored record and the TTL (seconds) set by the
last `SET ... EX` on it. -/
structure StrEntry where
  value : JobRecord
  ttl : Nat
deriving DecidableEq

/-- A Redis set entry: members in insertion order, and an optional TTL
(`none` until an EXPIRE is issued on the key). -/
structure SetEntry where
  members : List String
  ttl : Option Nat
deriving DecidableEq

/-- The key-value store state visible to QueueService: job-status string keys
and batch-membership set keys. -/
structure RedisState where
  strings : List (String × StrEntry)
  sets : List (String × SetEntry)
deriving DecidableEq

/-- Key for a job record, from the `jobStatusPrefix` field of QueueService. -/
def jobStatusKey (jobId : String) : String := "job:status:" ++ jobId

/-- Key for a batch membership set, from the `batchPrefix` field of QueueService. -/
def batchKey (batchId : String) : String := "batch:" ++ batchId

/-- `SET key json EX seconds` on a job-status key. -/
def redisSet (st : RedisState) (k : String) (v : JobRecord) (ex : Nat) : RedisState :=
  { st with strings := setKV st.strings k ⟨v, ex⟩ }

/-- `SADD key member`: creates the set if absent (with no TTL), otherwise adds
the member when not already present; never touches the TTL. -/
def sAddMember (st : RedisState) (k m : String) : RedisState :=
  match getKV st.sets k with
  | none => { st with sets := setKV st.sets k ⟨[m], none⟩ }
  | some e =>
    if m ∈ e.members then st
    else { st with sets := setKV st.sets k ⟨e.members ++ [m], e.ttl⟩ }

/-- `EXPIRE key seconds` on a set key (no-op when the key does not exist). -/
def expireSet (st : RedisState) (k : String) (seconds : Nat) : RedisState :=
  match getKV st.sets k with
  | none => st
  | some e => { st with sets := setKV st.sets k ⟨e.members, some seconds⟩ }

/-- The record actually stored by `updateJobStatus`:
`JSON.stringify({ ...statusData, updatedAt: new Date().toISOString() })`.
Note this is the patch itself with `updatedAt` stamped, not a merge with the
previously stored record. -/
def storedRecord (now : String) (patch : JobRecord) : JobRecord :=
  { patch with updatedAt := some now }

/-- QueueService.updateJobStatus (src/services/queueService.ts): writes the
patch (plus `updatedAt`) under the job-status key with EX 86400, then, when
the patch carries a `batchId`, SADDs the job id to the batch set and EXPIREs
that set to 86400 seconds. -/
def updateJobStatus (now : String) (st : RedisState) (jobId : String) (patch : JobRecord) :
    RedisState :=
  let st1 := redisSet st (jobStatusKey jobId) (storedRecord now patch) 86400
  match patch.batchId with
  | some b => expireSet (sAddMember st1 (batchKey b) jobId) (batchKey b) 86400
  | none => st1

/-- QueueService.getJobStatus: read and parse the job-status key, `none` when
absent. -/
def getJobStatus (st : RedisState) (jobId : String) : Option JobRecord :=
  (getKV st.strings (jobStatusKey jobId)).map (fun e => e.value)

/-- TTL currently attached to a job-status key (observability accessor). -/
def getJobTTL (st : RedisState) (jobId : String) : Option Nat :=
  (getKV st.strings (jobStatusKey jobId)).map (fun e => e.ttl)

/-- `SMEMBERS key` (empty list when the key does not exist). -/
def sMembers (st : RedisState) (k : String) : List String :=
  ((getKV st.sets k).map (fun e => e.members)).getD []

/-- TTL currently attached to a set key (observability accessor). -/
def getSetTTL (st : RedisState) (k : String) : Option Nat :=
  (getKV st.sets k).bind (fun e => e.ttl)

/-- Boolean lexicographic strict order on character lists (models the default
JavaScript string comparison used by `Array.prototype.sort`). -/
def charListLt : List Char → List Char → Bool
  | [], [] => false
  | [], _ :: _ => true
  | _ :: _, [] => false
  | a :: as, b :: bs => if a < b then true else if b < a then false else charListLt as bs

/-- Strict lexicographic order on strings. -/
def strLtb (a b : String) : Bool := charListLt a.data b.data

/-- Non-strict lexicographic order on strings. -/
def strLeb (a b : String) : Bool := strLtb a b || a == b

/-- Does the second list start with the first one? -/
def leadMatch : List Char → List Char → Bool
  | [], _ => true
  | _ :: _, [] => false
  | a :: as, b :: bs => a == b && leadMatch as bs

/-- `s.startsWith(p)` on strings. -/
def strStarts (s p : String) : Bool := leadMatch p.data s.data

/-- `s.endsWith(p)` on strings. -/
def strEnds (s p : String) : Bool := leadMatch p.data.reverse s.data.reverse

/-- ASCII lower-casing of one character (models `String.prototype.toLowerCase`
on the ASCII filenames this service handles). -/
def lowerChar (c : Char) : Char :=
  if 'A' ≤ c && c ≤ 'Z' then Char.ofNat (c.toNat + 32) else c

/-- ASCII lower-casing of a string. -/
def lowerStr (s : String) : String := ⟨s.data.map lowerChar⟩

/-- Index of the last occurrence of a character. -/
def lastIdxOf (c : Char) : List Char → Option Nat
  | [] => none
  | a :: t =>
    match lastIdxOf c t with
    | some i => some (i + 1)
    | none => if a == c then some 0 else none

/-- Characters after the last path separator (Node `path.basename`). -/
def basenameChars (cs : List Char) : List Char :=
  match lastIdxOf '/' cs with
  | none => cs
  | some i => cs.drop (i + 1)

/-- Node `path.basename(p)`. -/
def basename (p : String) : String := ⟨basenameChars p.data⟩

/-- Node `path.extname`: from the last dot of the basename to its end, empty
when there is no dot or the only dot is the leading character. -/
def extnameChars (cs : List Char) : List Char :=
  let b := basenameChars cs
  match lastIdxOf '.' b with
  | none => []
  | some i => if i = 0 then [] else b.drop i

/-- Node `path.extname(p)`. -/
def extname (p : String) : String := ⟨extnameChars p.data⟩

/-- Drop a given suffix from a list when it is present. -/
def stripSuffixChars (b e : List Char) : List Char :=
  if e ≠ [] && leadMatch e.reverse b.reverse then b.take (b.length - e.length) else b

/-- Node `path.basename(p, path.extname(p))`: the basename with its extension
removed, as used by the worker and the ZIP naming. -/
def basenameNoExt (p : String) : String :=
  ⟨stripSuffixChars (basenameChars p.data) (extnameChars p.data)⟩

/-- Payload handed to the queues, from `JobData` in src/types/index.ts. -/
structure JobData where
  jobId : String
  batchId : Option String := none
  filePath : String
  originalName : String
  dpi : Option Nat := none
deriving DecidableEq

/-- Bull job options passed on `queue.add` (second argument). -/
structure QueueOpts where
  jobId : String
  attempts : Nat
  backoffType : String
  backoffDelay : Nat
deriving DecidableEq

/-- One entry sitting in a Bull queue: the data object and the options. -/
structure QueueEntry where
  data : JobData
  opts : QueueOpts
deriving DecidableEq

/-- The options literal used by both `addPNGConversionJob` and
`addPDFConversionJob`: the caller-supplied job id as the queue key, 3
attempts, exponential backoff with 5000 ms initial delay. -/
def retryOpts (jobId : String) : QueueOpts :=
  { jobId := jobId, attempts := 3, backoffType := "exponential", backoffDelay := 5000 }

/-- The data object `addPNGConversionJob` passes to `pngQueue.add`
(jobId, batchId, filePath, originalName, dpi — i.e. all of JobData). -/
def pngQueueEntry (jd : JobData) : QueueEntry := ⟨jd, retryOpts jd.jobId⟩

/-- The data object `addPDFConversionJob` passes to `pdfQueue.add`
(jobId, batchId, filePath, originalName — no dpi). -/
def pdfQueueEntry (jd : JobData) : QueueEntry := ⟨{ jd with dpi := none }, retryOpts jd.jobId⟩

/-- The initial ledger patch written by the enqueue operations: status
`queued`, progress 0, creation timestamp. -/
def initialPatch (fmt : JFormat) (jd : JobData) (now : String) : JobRecord :=
  { jobId := some jd.jobId, batchId := jd.batchId, status := some JStatus.queued,
    originalName := some jd.originalName, format := some fmt,
    createdAt := some now, progress := some 0 }

/-- The patch written by the worker when it picks a job up (status
`processing`, progress 10), from processPNGConversion / processPDFConversion
in src/worker.ts. -/
def processingPatch (fmt : JFormat) (jobId : String) (batchId : Option String)
    (origName : String) : JobRecord :=
  { jobId := some jobId, batchId := batchId, status := some JStatus.processing,
    originalName := some origName, format := some fmt, progress := some 10 }

/-- The patch written by the PNG worker on success (status `completed`,
progress 100, result location, presigned URL, content type, filename, page
count, completion timestamp). -/
def completedPatchPNG (jobId : String) (batchId : Option String)
    (origName resultPath downloadUrl contentType filename : String)
    (fileCount : Nat) (completedAt : String) : JobRecord :=
  { jobId := some jobId, batchId := batchId, status := some JStatus.completed,
    originalName := some origName, format := some JFormat.png, progress := some 100,
    resultPath := some resultPath, downloadUrl := some downloadUrl,
    contentType := some contentType, filename := some filename,
    fileCount := some fileCount, completedAt := some completedAt }

/-- The patch written by the PDF worker on success (content type always
`application/pdf`, no file count). -/
def completedPatchPDF (jobId : String) (batchId : Option String)
    (origName resultPath downloadUrl filename : String) (completedAt : String) : JobRecord :=
  { jobId := some jobId, batchId := batchId, status := some JStatus.completed,
    originalName := some origName, format := some JFormat.pdf, progress := some 100,
    resultPath := some resultPath, downloadUrl := some downloadUrl,
    contentType := some "application/pdf", filename := some filename,
    completedAt := some completedAt }

/-- The patch written by either worker on failure (status `failed`, error
message, failure timestamp; note: no progress, no result fields). -/
def failedPatch (fmt : JFormat) (jobId : String) (batchId : Option String)
    (origName errMsg failedAt : String) : JobRecord :=
  { jobId := some jobId, batchId := batchId, status := some JStatus.failed,
    originalName := some origName, format := some fmt,
    error := some errMsg, failedAt := some failedAt }

/-- The primitive external operations performed by QueueService, in program
order (used to settle ordering claims about the enqueue path). -/
inductive Effect
  | queueAdd (queueName : String) (entry : QueueEntry)
  | redisSetOp (key : String) (value : JobRecord) (exSeconds : Nat)
  | redisSAddOp (key member : String)
  | redisExpireOp (key : String) (seconds : Nat)
deriving DecidableEq

/-- The operations `updateJobStatus` performs, in order. -/
def updateJobStatusEffects (now jobId : String) (patch : JobRecord) : List Effect :=
  Effect.redisSetOp (jobStatusKey jobId) (storedRecord now patch) 86400 ::
    (match patch.batchId with
     | some b => [Effect.redisSAddOp (batchKey b) jobId, Effect.redisExpireOp (batchKey b) 86400]
     | none => [])

/-- The operations `addPNGConversionJob` performs, in order: first
`pngQueue.add(data, opts)`, then the initial status write. -/
def addPNGConversionJobEffects (now : String) (jd : JobData) : List Effect :=
  Effect.queueAdd "png-conversion" (pngQueueEntry jd) ::
    updateJobStatusEffects now jd.jobId (initialPatch JFormat.png jd now)

/-- The operations `addPDFConversionJob` performs, in order: first
`pdfQueue.add(data, opts)`, then the initial status write. -/
def addPDFConversionJobEffects (now : String) (jd : JobData) : List Effect :=
  Effect.queueAdd "pdf-conversion" (pdfQueueEntry jd) ::
    updateJobStatusEffects now jd.jobId (initialPatch JFormat.pdf jd now)

/-- Is an effect a write of a ledger job record? -/
def isLedgerWrite : Effect → Bool
  | Effect.redisSetOp _ _ _ => true
  | _ => false

/-- Is an effect a submission to a Bull queue? -/
def isQueueSubmit : Effect → Bool
  | Effect.queueAdd _ _ => true
  | _ => false

/-- Bull `queue.add` with an explicit `jobId` option: a second add with the
same job id is ignored by the queue library. -/
def queueAddEntry (q : List QueueEntry) (e : QueueEntry) : List QueueEntry :=
  if q.any (fun x => x.opts.jobId == e.opts.jobId) then q else q ++ [e]

/-- The state the API process can affect: the ledger plus the two queues. -/
structure SystemState where
  redis : RedisState
  pngQueue : List QueueEntry
  pdfQueue : List QueueEntry
deriving DecidableEq

/-- QueueService.addPNGConversionJob at the state level: submit to the PNG
queue, then write the initial `queued` record. -/
def addPNGConversionJob (now : String) (st : SystemState) (jd : JobData) : SystemState :=
  let st1 := { st with pngQueue := queueAddEntry st.pngQueue (pngQueueEntry jd) }
  { st1 with redis := updateJobStatus now st1.redis jd.jobId (initialPatch JFormat.png jd now) }

/-- QueueService.addPDFConversionJob at the state level: submit to the PDF
queue, then write the initial `queued` record. -/
def addPDFConversionJob (now : String) (st : SystemState) (jd : JobData) : SystemState :=
  let st1 := { st with pdfQueue := queueAddEntry st.pdfQueue (pdfQueueEntry jd) }
  { st1 with redis := updateJobStatus now st1.redis jd.jobId (initialPatch JFormat.pdf jd now) }

theorem getKV_setKV_self {α : Type} (l : List (String × α)) (k : String) (v : α) :
    getKV (setKV l k v) k = some v := by
  induction l with
  | nil => simp [setKV, getKV]
  | cons h t ih =>
    obtain ⟨k', v'⟩ := h
    by_cases hk : k' = k
    · simp [setKV, getKV, hk]
    · simp [setKV, getKV, hk, ih]

theorem sAddMember_strings (st : RedisState) (k m : String) :
    (sAddMember st k m).strings = st.strings := by
  unfold sAddMember
  cases hg : getKV st.sets k with
  | none => rfl
  | some e => by_cases hm : m ∈ e.members <;> simp [hm]

theorem expireSet_strings (st : RedisState) (k : String) (s : Nat) :
    (expireSet st k s).strings = st.strings := by
  unfold expireSet
  cases hg : getKV st.sets k <;> rfl

theorem sMembers_redisSet (st : RedisState) (k : String) (v : JobRecord) (ex : Nat)
    (k2 : String) : sMembers (redisSet st k v ex) k2 = sMembers st k2 := rfl

theorem sAdd_expire_spec (st : RedisState) (k m : String) (s : Nat) :
    sMembers (expireSet (sAddMember st k m) k s) k =
      (if m ∈ sMembers st k then sMembers st k else sMembers st k ++ [m]) ∧
    getSetTTL (expireSet (sAddMember st k m) k s) k = some s := by
  cases hg : getKV st.sets k with
  | none =>
    constructor
    · simp [sAddMember, expireSet, hg, getKV_setKV_self, sMembers]
    · simp [sAddMember, expireSet, hg, getKV_setKV_self, getSetTTL]
  | some e =>
    by_cases hm : m ∈ e.members
    · constructor
      · simp [sAddMember, expireSet, hg, hm, getKV_setKV_self, sMembers]
      · simp [sAddMember, expireSet, hg, hm, getKV_setKV_self, getSetTTL]
    · constructor
      · simp [sAddMember, expireSet, hg, hm, getKV_setKV_self, sMembers]
      · simp [sAddMember, expireSet, hg, hm, getKV_setKV_self, getSetTTL]

/-- C1 (amended): `updateJobStatus(jobId, patch)` does not merge the patch
into the previously stored record — it replaces the stored record with
exactly the patch's fields plus a freshly stamped `updatedAt` (fields absent
from the patch are dropped); the record is persisted with a 24-hour expiry
reset on every write; and when the patch carries a batch identifier, the job
id is added to that batch's membership set whose 24-hour expiry is refreshed. -/
theorem C1_recordStatus_replaces (now : String) (st : RedisState) (jobId : String)
    (patch : JobRecord) :
    getJobStatus (updateJobStatus now st jobId patch) jobId = some (storedRecord now patch) ∧
    getJobTTL (updateJobStatus now st jobId patch) jobId = some 86400 ∧
    (∀ b, patch.batchId = some b →
      sMembers (updateJobStatus now st jobId patch) (batchKey b) =
        (if jobId ∈ sMembers st (batchKey b) then sMembers st (batchKey b)
         else sMembers st (batchKey b) ++ [jobId]) ∧
      getSetTTL (updateJobStatus now st jobId patch) (batchKey b) = some 86400) ∧
    (patch.batchId = none → (updateJobStatus now st jobId patch).sets = st.sets) := by
  refine ⟨?_, ?_, ?_, ?_⟩
  · unfold updateJobStatus
    cases hb : patch.batchId with
    | none => simp [getJobStatus, redisSet, getKV_setKV_self]
    | some b =>
      simp [getJobStatus, sAddMember_strings, expireSet_strings, redisSet, getKV_setKV_self]
  · unfold updateJobStatus
    cases hb : patch.batchId with
    | none => simp [getJobTTL, redisSet, getKV_setKV_self]
    | some b =>
      simp [getJobTTL, sAddMember_strings, expireSet_strings, redisSet, getKV_setKV_self]
  · intro b hb
    unfold updateJobStatus
    rw [hb]
    have h := sAdd_expire_spec
      (redisSet st (jobStatusKey jobId) (storedRecord now patch) 86400) (batchKey b) jobId 86400
    simp only [sMembers_redisSet] at h
    exact h
  · intro hb
    unfold updateJobStatus
    rw [hb]
    rfl

def jdC1 : JobData :=
  { jobId := "j1", batchId := none, filePath := "/tmp/u1.docx",
    originalName := "a.docx", dpi := some 150 }

def redisC1 : RedisState :=
  ⟨[(jobStatusKey "j1", ⟨storedRecord "t0" (initialPatch JFormat.png jdC1 "t0"), 86400⟩)], []⟩

/-- C1 counterexample: the claim says the patch's fields are merged into the
previously stored record; on the code, a `processing` patch (which carries no
`createdAt`) erases the `createdAt` that the stored record held before the
write, because `updateJobStatus` overwrites the whole record. -/
theorem C1_counterexample :
    (getJobStatus redisC1 "j1").map (fun r => r.createdAt) = some (some "t0") ∧
    (getJobStatus (updateJobStatus "t1" redisC1 "j1"
        (processingPatch JFormat.png "j1" none "a.docx")) "j1").map (fun r => r.createdAt) =
      some none := by decide

def patchB1 : JobRecord :=
  initialPatch JFormat.png
    { jobId := "j1", batchId := some "b1", filePath := "/tmp/u1.docx",
      originalName := "a.docx", dpi := some 150 } "t1"

def redisEmpty : RedisState := ⟨[], []⟩

theorem C1_recordStatus_replaces_witness :
    getJobStatus (updateJobStatus "t1" redisEmpty "j1" patchB1) "j1" =
      some (storedRecord "t1" patchB1) ∧
    getSetTTL (updateJobStatus "t1" redisEmpty "j1" patchB1) (batchKey "b1") = some 86400 :=
  ⟨(C1_recordStatus_replaces "t1" redisEmpty "j1" patchB1).1,
   ((C1_recordStatus_replaces "t1" redisEmpty "j1" patchB1).2.2.1 "b1" rfl).2⟩

/-- Every ledger write the system performs, one constructor per write site:
the two enqueue writes (queueService.ts), and the processing / completed /
failed writes of the two worker processors (worker.ts). -/
inductive SystemWrite
  | enqueuePNG (jd : JobData) (now : String)
  | enqueuePDF (jd : JobData) (now : String)
  | processingPNG (jobId : String) (batchId : Option String) (origName : String)
  | processingPDF (jobId : String) (batchId : Option String) (origName : String)
  | completedPNG (jobId : String) (batchId : Option String)
      (origName resultPath downloadUrl contentType filename : String)
      (fileCount : Nat) (completedAt : String)
  | completedPDF (jobId : String) (batchId : Option String)
      (origName resultPath downloadUrl filename completedAt : String)
  | failedPNG (jobId : String) (batchId : Option String) (origName errMsg failedAt : String)
  | failedPDF (jobId : String) (batchId : Option String) (origName errMsg failedAt : String)

/-- The patch each write site passes to `updateJobStatus`. -/
def writePatch : SystemWrite → JobRecord
  | SystemWrite.enqueuePNG jd now => initialPatch JFormat.png jd now
  | SystemWrite.enqueuePDF jd now => initialPatch JFormat.pdf jd now
  | SystemWrite.processingPNG j b n => processingPatch JFormat.png j b n
  | SystemWrite.processingPDF j b n => processingPatch JFormat.pdf j b n
  | SystemWrite.completedPNG j b n rp du ct fn fc ca => completedPatchPNG j b n rp du ct fn fc ca
  | SystemWrite.completedPDF j b n rp du fn ca => completedPatchPDF j b n rp du fn ca
  | SystemWrite.failedPNG j b n e t => failedPatch JFormat.png j b n e t
  | SystemWrite.failedPDF j b n e t => failedPatch JFormat.pdf j b n e t

/-- All four completion fields are present on a record. -/
def resultFieldsPresent (r : JobRecord) : Prop :=
  r.resultPath.isSome = true ∧ r.downloadUrl.isSome = true ∧
  r.contentType.isSome = true ∧ r.filename.isSome = true

/-- C2: for every job record the system ever writes to the ledger (enqueue,
processing, completed and failed writes), the fields resultPath, downloadUrl,
contentType and filename are present iff the record's status is `completed`,
and the error field is present iff its status is `failed`. -/
theorem C2_result_error_iff (w : SystemWrite) (now : String) :
    (resultFieldsPresent (storedRecord now (writePatch w)) ↔
      (storedRecord now (writePatch w)).status = some JStatus.completed) ∧
    ((storedRecord now (writePatch w)).error.isSome = true ↔
      (storedRecord now (writePatch w)).status = some JStatus.failed) := by
  cases w <;>
    simp [writePatch, storedRecord, resultFieldsPresent, initialPatch, processingPatch,
      completedPatchPNG, completedPatchPDF, failedPatch]

def jdC4 : JobData :=
  { jobId := "job-1", batchId := none, filePath := "/tmp/f1.docx",
    originalName := "deck.docx", dpi := some 150 }

/-- C4 counterexample: the claim says the enqueue operation first writes the
initial ledger record and only then submits the job to the queue; in the code
`queue.add` runs first and the ledger write second, so at this concrete input
the ledger write's position does not precede the queue submission's. -/
theorem C4_counterexample :
    ¬ ((addPNGConversionJobEffects "t0" jdC4).findIdx isLedgerWrite <
       (addPNGConversionJobEffects "t0" jdC4).findIdx isQueueSubmit) := by decide

/-- C4 (amended): each enqueue operation submits the job to its queue FIRST —
keyed by the caller-supplied job id, with a maximum of 3 delivery attempts
and exponential backoff starting at 5000 ms — and only then writes the
initial ledger record with status `queued` and progress 0. -/
theorem C4_enqueue_contract (now : String) (jd : JobData) :
    addPNGConversionJobEffects now jd =
      Effect.queueAdd "png-conversion" ⟨jd, retryOpts jd.jobId⟩ ::
        updateJobStatusEffects now jd.jobId (initialPatch JFormat.png jd now) ∧
    addPDFConversionJobEffects now jd =
      Effect.queueAdd "pdf-conversion" ⟨{ jd with dpi := none }, retryOpts jd.jobId⟩ ::
        updateJobStatusEffects now jd.jobId (initialPatch JFormat.pdf jd now) ∧
    (updateJobStatusEffects now jd.jobId (initialPatch JFormat.png jd now)).head? =
      some (Effect.redisSetOp (jobStatusKey jd.jobId)
        (storedRecord now (initialPatch JFormat.png jd now)) 86400) ∧
    (retryOpts jd.jobId).jobId = jd.jobId ∧ (retryOpts jd.jobId).attempts = 3 ∧
    (retryOpts jd.jobId).backoffType = "exponential" ∧
    (retryOpts jd.jobId).backoffDelay = 5000 ∧
    (initialPatch JFormat.png jd now).status = some JStatus.queued ∧
    (initialPatch JFormat.png jd now).progress = some 0 ∧
    (initialPatch JFormat.pdf jd now).status = some JStatus.queued ∧
    (initialPatch JFormat.pdf jd now).progress = some 0 :=
  ⟨rfl, rfl, rfl, rfl, rfl, rfl, rfl, rfl, rfl, rfl, rfl⟩

/-- Aggregate batch view, from `BatchStatus` in src/types/index.ts. -/
structure BatchStatusR where
  batchId : String
  status : BStatus
  totalJobs : Nat
  completed : Nat
  failed : Nat
  processing : Nat
  queued : Nat
  jobs : List JobRecord
deriving DecidableEq

/-- `jobs.filter(j => j.status === s).length`. -/
def countStatus (jobs : List JobRecord) (s : JStatus) : Nat :=
  (jobs.filter (fun j => decide (j.status = some s))).length

/-- The member ids recorded for a batch. -/
def batchMembers (st : RedisState) (b : String) : List String :=
  sMembers st (batchKey b)

/-- The live job records of a batch's members: ids whose record is missing
(e.g. expired) are silently dropped, mirroring the `if (jobStatus)` filter in
`getBatchStatus`. -/
def batchJobRecords (st : RedisState) (b : String) : List JobRecord :=
  (batchMembers st b).filterMap (fun j => getJobStatus st j)

/-- The object returned for a batch with no recorded members. -/
def emptyBatchSentinel (b : String) : BatchStatusR :=
  { batchId := b, status := BStatus.queued, totalJobs := 0, completed := 0,
    failed := 0, processing := 0, queued := 0, jobs := [] }

/-- QueueService.getBatchStatus: read the member set; with no members return
the empty-batch sentinel; otherwise fetch each member's record (dropping
missing ones), and compute the aggregate: default `completed`, overridden to
`someFailed` ("partial") when some member failed, else to `processing` when
some member is processing or queued. -/
def getBatchStatus (st : RedisState) (batchId : String) : BatchStatusR :=
  let jobIds := sMembers st (batchKey batchId)
  if jobIds = [] then emptyBatchSentinel batchId
  else
    let jobs := jobIds.filterMap (fun j => getJobStatus st j)
    let overall : BStatus :=
      if ∃ j ∈ jobs, j.status = some JStatus.failed then BStatus.someFailed
      else if ∃ j ∈ jobs, j.status = some JStatus.processing ∨ j.status = some JStatus.queued
        then BStatus.processing
      else BStatus.completed
    { batchId := batchId, status := overall, totalJobs := jobs.length,
      completed := countStatus jobs JStatus.completed,
      failed := countStatus jobs JStatus.failed,
      processing := countStatus jobs JStatus.processing,
      queued := countStatus jobs JStatus.queued,
      jobs := jobs }

/-- Response of GET /jobs/batch/:batchId (src/server.ts): 404 when the
computed aggregate has no jobs, otherwise the aggregate as JSON. -/
inductive BatchRouteResp
  | notFound
  | ok (body : BatchStatusR)
deriving DecidableEq

/-- The GET /jobs/batch/:batchId handler. -/
def batchRoute (st : RedisState) (b : String) : BatchRouteResp :=
  let s := getBatchStatus st b
  if s.jobs = [] then BatchRouteResp.notFound else BatchRouteResp.ok s

theorem getBatchStatus_empty (st : RedisState) (b : String)
    (h : sMembers st (batchKey b) = []) :
    getBatchStatus st b = emptyBatchSentinel b := by
  simp [getBatchStatus, h]

theorem getBatchStatus_status (st : RedisState) (b : String)
    (hne : sMembers st (batchKey b) ≠ []) :
    (getBatchStatus st b).status =
      (if ∃ j ∈ batchJobRecords st b, j.status = some JStatus.failed then BStatus.someFailed
       else if ∃ j ∈ batchJobRecords st b,
           j.status = some JStatus.processing ∨ j.status = some JStatus.queued
         then BStatus.processing
       else BStatus.completed) := by
  unfold getBatchStatus batchJobRecords batchMembers
  simp only [if_neg hne]

theorem getBatchStatus_counts (st : RedisState) (b : String) :
    (getBatchStatus st b).totalJobs = (batchJobRecords st b).length ∧
    (getBatchStatus st b).jobs = batchJobRecords st b ∧
    (getBatchStatus st b).completed = countStatus (batchJobRecords st b) JStatus.completed ∧
    (getBatchStatus st b).failed = countStatus (batchJobRecords st b) JStatus.failed ∧
    (getBatchStatus st b).processing = countStatus (batchJobRecords st b) JStatus.processing ∧
    (getBatchStatus st b).queued = countStatus (batchJobRecords st b) JStatus.queued := by
  by_cases h : sMembers st (batchKey b) = []
  · rw [getBatchStatus_empty st b h]
    unfold batchJobRecords batchMembers
    simp [h, emptyBatchSentinel, countStatus]
  · unfold getBatchStatus batchJobRecords batchMembers
    simp [if_neg h, countStatus]

/-- C3: for a non-empty batch the aggregate status computed on read follows
exactly the precedence failed-dominance (`someFailed`, the source's string
"partial", whenever at least one member failed), then in-progress
(`processing` when some member is processing or queued), then `completed`
when every member job is completed; a batch with no recorded members yields
the empty-batch sentinel (zero jobs, default status queued). -/
theorem C3_batch_aggregate (st : RedisState) (b : String) :
    (batchMembers st b = [] → getBatchStatus st b = emptyBatchSentinel b) ∧
    (batchMembers st b ≠ [] →
      ((∃ j ∈ batchJobRecords st b, j.status = some JStatus.failed) →
        (getBatchStatus st b).status = BStatus.someFailed) ∧
      ((∀ j ∈ batchJobRecords st b, j.status ≠ some JStatus.failed) →
        (∃ j ∈ batchJobRecords st b,
          j.status = some JStatus.processing ∨ j.status = some JStatus.queued) →
        (getBatchStatus st b).status = BStatus.processing) ∧
      ((∀ j ∈ batchJobRecords st b, j.status = some JStatus.completed) →
        (getBatchStatus st b).status = BStatus.completed)) := by
  constructor
  · intro h
    exact getBatchStatus_empty st b h
  · intro hne
    rw [getBatchStatus_status st b hne]
    refine ⟨?_, ?_, ?_⟩
    · intro hfail
      rw [if_pos hfail]
    · intro hnofail hproc
      have h1 : ¬ ∃ j ∈ batchJobRecords st b, j.status = some JStatus.failed := by
        rintro ⟨j, hj, hs⟩
        exact hnofail j hj hs
      rw [if_neg h1, if_pos hproc]
    · intro hall
      have h1 : ¬ ∃ j ∈ batchJobRecords st b, j.status = some JStatus.failed := by
        rintro ⟨j, hj, hs⟩
        have hc := hall j hj
        rw [hc] at hs
        simp at hs
      have h2 : ¬ ∃ j ∈ batchJobRecords st b,
          j.status = some JStatus.processing ∨ j.status = some JStatus.queued := by
        rintro ⟨j, hj, hs⟩
        have hc := hall j hj
        rw [hc] at hs
        rcases hs with h | h <;> simp at h
      rw [if_neg h1, if_neg h2]

def redisC3 : RedisState :=
  ⟨[(jobStatusKey "j1",
      ⟨storedRecord "t1" (failedPatch JFormat.png "j1" (some "b") "a.docx" "boom" "t1"), 86400⟩),
    (jobStatusKey "j2",
      ⟨storedRecord "t1"
        (completedPatchPNG "j2" (some "b") "b.docx" "rp2" "du2" "image/png" "f2.png" 1 "t1"),
       86400⟩),
    (jobStatusKey "j3",
      ⟨storedRecord "t1"
        (completedPatchPNG "j3" (some "b") "c.docx" "rp3" "du3" "image/png" "f3.png" 1 "t1"),
       86400⟩)],
   [(batchKey "b", ⟨["j1", "j2", "j3"], some 86400⟩)]⟩

theorem C3_batch_aggregate_witness :
    (getBatchStatus redisC3 "b").status = BStatus.someFailed :=
  ((C3_batch_aggregate redisC3 "b").2 (by decide)).1 (by decide)

/-- C10: `getBatchStatus` silently excludes member job ids whose status
records are missing (e.g. expired): totalJobs, the per-status counts and the
jobs list reflect only members with live records; when every member's record
is missing, the computed aggregate has status `completed`, zero totalJobs and
an empty jobs list, and the HTTP layer then reports 404. -/
theorem C10_missing_records (st : RedisState) (b : String) :
    (getBatchStatus st b).totalJobs = (batchJobRecords st b).length ∧
    (getBatchStatus st b).jobs = batchJobRecords st b ∧
    (getBatchStatus st b).completed = countStatus (batchJobRecords st b) JStatus.completed ∧
    (getBatchStatus st b).failed = countStatus (batchJobRecords st b) JStatus.failed ∧
    (getBatchStatus st b).processing = countStatus (batchJobRecords st b) JStatus.processing ∧
    (getBatchStatus st b).queued = countStatus (batchJobRecords st b) JStatus.queued ∧
    (batchMembers st b ≠ [] → batchJobRecords st b = [] →
      (getBatchStatus st b).status = BStatus.completed ∧
      (getBatchStatus st b).totalJobs = 0 ∧
      (getBatchStatus st b).jobs = [] ∧
      batchRoute st b = BatchRouteResp.notFound) := by
  obtain ⟨h1, h2, h3, h4, h5, h6⟩ := getBatchStatus_counts st b
  refine ⟨h1, h2, h3, h4, h5, h6, ?_⟩
  intro hne hmiss
  have hs := getBatchStatus_status st b hne
  rw [hmiss] at hs
  simp only [List.not_mem_nil, false_and, exists_false, if_false] at hs
  refine ⟨hs, ?_, ?_, ?_⟩
  · rw [h1, hmiss]
    rfl
  · rw [h2, hmiss]
  · unfold batchRoute
    rw [if_pos (by rw [h2, hmiss])]

def redisC10 : RedisState := ⟨[], [(batchKey "bx", ⟨["gone1", "gone2"], some 86400⟩)]⟩

theorem C10_missing_records_witness :
    (getBatchStatus redisC10 "bx").status = BStatus.completed ∧
    batchRoute redisC10 "bx" = BatchRouteResp.notFound :=
  ⟨((C10_missing_records redisC10 "bx").2.2.2.2.2.2 (by decide) (by decide)).1,
   ((C10_missing_records redisC10 "bx").2.2.2.2.2.2 (by decide) (by decide)).2.2.2⟩

/-- Response of GET /jobs/:jobId/download (src/server.ts). -/
inductive DownloadResp
  | notFound
  | notCompleted (currentStatus : Option JStatus)
  | missingResultPath
  | stream (resultPath contentType : String) (filename : Option String)
deriving DecidableEq

/-- The GET /jobs/:jobId/download handler: 404 when the job is unknown; 400
(with the job's current status in the body) when its status is not
`completed`; 500 when a completed record lacks a resultPath; otherwise the
stored object is streamed with the record's contentType (defaulting to
application/octet-stream) and filename. -/
def downloadRoute (st : RedisState) (jobId : String) : DownloadResp :=
  match getJobStatus st jobId with
  | none => DownloadResp.notFound
  | some js =>
    if js.status ≠ some JStatus.completed then DownloadResp.notCompleted js.status
    else
      match js.resultPath with
      | none => DownloadResp.missingResultPath
      | some rp =>
        DownloadResp.stream rp (js.contentType.getD "application/octet-stream") js.filename

/-- HTTP status code of each download response. -/
def downloadRespCode : DownloadResp → Nat
  | DownloadResp.notFound => 404
  | DownloadResp.notCompleted _ => 400
  | DownloadResp.missingResultPath => 500
  | DownloadResp.stream _ _ _ => 200

/-- C7: GET /jobs/:jobId/download returns 404 when the job id is unknown;
400 with the job's current status in the body when the job exists but is not
`completed`; and the stored result is streamed only when the status is
`completed` (and then the streamed path is the record's resultPath). -/
theorem C7_download_route (st : RedisState) (jobId : String) :
    (getJobStatus st jobId = none →
      downloadRoute st jobId = DownloadResp.notFound ∧
      downloadRespCode (downloadRoute st jobId) = 404) ∧
    (∀ js, getJobStatus st jobId = some js → js.status ≠ some JStatus.completed →
      downloadRoute st jobId = DownloadResp.notCompleted js.status ∧
      downloadRespCode (downloadRoute st jobId) = 400) ∧
    (∀ rp ct fn, downloadRoute st jobId = DownloadResp.stream rp ct fn →
      ∃ js, getJobStatus st jobId = some js ∧ js.status = some JStatus.completed ∧
        js.resultPath = some rp) := by
  refine ⟨?_, ?_, ?_⟩
  · intro h
    unfold downloadRoute
    rw [h]
    exact ⟨rfl, rfl⟩
  · intro js h hns
    unfold downloadRoute
    rw [h]
    simp only [if_pos hns]
    exact ⟨trivial, rfl⟩
  · intro rp ct fn h
    unfold downloadRoute at h
    cases hg : getJobStatus st jobId with
    | none =>
      rw [hg] at h
      simp at h
    | some js =>
      rw [hg] at h
      by_cases hc : js.status ≠ some JStatus.completed
      · simp only [if_pos hc] at h
        simp at h
      · simp only [if_neg hc] at h
        push_neg at hc
        cases hrp : js.resultPath with
        | none =>
          rw [hrp] at h
          simp at h
        | some rp' =>
          rw [hrp] at h
          simp only [DownloadResp.stream.injEq] at h
          refine ⟨js, rfl, hc, ?_⟩
          rw [hrp, h.1]

def redisC7 : RedisState :=
  ⟨[(jobStatusKey "jp",
      ⟨storedRecord "t1" (processingPatch JFormat.pdf "jp" none "r.docx"), 86400⟩)], []⟩

theorem C7_download_route_witness :
    downloadRoute redisC7 "jp" =
      DownloadResp.notCompleted (some JStatus.processing) ∧
    downloadRespCode (downloadRoute redisC7 "jp") = 400 :=
  (C7_download_route redisC7 "jp").2.1
    (storedRecord "t1" (processingPatch JFormat.pdf "jp" none "r.docx"))
    (by decide) (by decide)

/-- Outcome of the axios probe `GET GOTENBERG_URL/health` (5 s timeout): the
promise resolves with an HTTP status, or rejects with a transport error or a
timeout. -/
inductive ProbeOutcome
  | responded (httpStatus : Nat)
  | transportError (msg : String)
  | timedOut
deriving DecidableEq

/-- ConversionService.checkHealth: true exactly when the probe resolved with
HTTP 200; every rejection (transport error or timeout) is caught and yields
false — the function is total, it never throws. -/
def checkHealth : ProbeOutcome → Bool
  | ProbeOutcome.responded s => s == 200
  | ProbeOutcome.transportError _ => false
  | ProbeOutcome.timedOut => false

/-- Status code and service report of GET /health (src/server.ts). -/
structure HealthResponse where
  statusCode : Nat
  gotenberg : String
  redis : String
  minio : String
deriving DecidableEq

/-- Render one dependency check in the body. -/
def upDown (b : Bool) : String := if b then "up" else "down"

/-- The GET /health handler: 200 when all three dependency checks succeed,
503 otherwise. -/
def healthRoute (g r m : Bool) : HealthResponse :=
  { statusCode := if g && r && m then 200 else 503,
    gotenberg := upDown g, redis := upDown r, minio := upDown m }

/-- C9: the Conversion Gateway's health check returns a boolean and reports
every failure (including timeout) as down — it is true exactly on an HTTP
200 response; and GET /health answers 200 exactly when all three dependency
checks (conversion engine, queue store, object store) succeed, 503 otherwise. -/
theorem C9_health (p : ProbeOutcome) (msg : String) (g r m : Bool) :
    checkHealth (ProbeOutcome.transportError msg) = false ∧
    checkHealth ProbeOutcome.timedOut = false ∧
    (checkHealth p = true ↔ p = ProbeOutcome.responded 200) ∧
    ((healthRoute g r m).statusCode = 200 ↔ g = true ∧ r = true ∧ m = true) ∧
    ((healthRoute g r m).statusCode = 503 ↔ ¬(g = true ∧ r = true ∧ m = true)) := by
  refine ⟨rfl, rfl, ?_, ?_, ?_⟩
  · cases p <;> simp [checkHealth]
  · cases g <;> cases r <;> cases m <;> simp [healthRoute]
  · cases g <;> cases r <;> cases m <;> simp [healthRoute]

/-- Insertion of one path into a lexicographically sorted list. -/
def insertLe (a : String) : List String → List String
  | [] => [a]
  | b :: t => if strLeb a b then a :: b :: t else b :: insertLe a t

/-- Lexicographic sort, modelling `Array.prototype.sort()` on the generated
page filenames. -/
def sortLe : List String → List String
  | [] => []
  | a :: t => insertLe a (sortLe t)

/-- Is every adjacent pair of a list in lexicographic order? -/
def sortedLe : List String → Bool
  | [] => true
  | [_] => true
  | a :: b :: t => strLeb a b && sortedLe (b :: t)

theorem charListLt_total (cs : List Char) : ∀ ds,
    charListLt cs ds = true ∨ charListLt ds cs = true ∨ cs = ds := by
  induction cs with
  | nil =>
    intro ds
    cases ds with
    | nil => right; right; rfl
    | cons d dt => left; rfl
  | cons a as ih =>
    intro ds
    cases ds with
    | nil => right; left; rfl
    | cons b bs =>
      by_cases hab : a < b
      · left
        simp [charListLt, hab]
      · by_cases hba : b < a
        · right; left
          simp [charListLt, hba]
        · have hab2 : a = b := le_antisymm (not_lt.mp hba) (not_lt.mp hab)
          subst hab2
          rcases ih bs with h | h | h
          · left
            simp [charListLt, lt_irrefl, h]
          · right; left
            simp [charListLt, lt_irrefl, h]
          · right; right
            rw [h]

theorem strLeb_total (a b : String) : strLeb a b = true ∨ strLeb b a = true := by
  rcases charListLt_total a.data b.data with h | h | h
  · left
    simp [strLeb, strLtb, h]
  · right
    simp [strLeb, strLtb, h]
  · left
    have hab : a = b := by
      cases a
      cases b
      exact congrArg String.mk h
    simp [strLeb, hab]

theorem sortedLe_insertLe (a : String) (l : List String) (h : sortedLe l = true) :
    sortedLe (insertLe a l) = true := by
  induction l with
  | nil => rfl
  | cons b t ih =>
    have hbt : sortedLe t = true := by
      cases t with
      | nil => rfl
      | cons c t' =>
        have h2 := h
        simp only [sortedLe, Bool.and_eq_true] at h2
        exact h2.2
    by_cases hab : strLeb a b = true
    · show sortedLe (if strLeb a b = true then a :: b :: t else b :: insertLe a t) = true
      rw [if_pos hab]
      show (strLeb a b && sortedLe (b :: t)) = true
      rw [hab, h]
      rfl
    · show sortedLe (if strLeb a b = true then a :: b :: t else b :: insertLe a t) = true
      rw [if_neg hab]
      have hba : strLeb b a = true := (strLeb_total a b).resolve_left hab
      have hins := ih hbt
      cases t with
      | nil =>
        show (strLeb b a && sortedLe [a]) = true
        rw [hba]
        rfl
      | cons c t' =>
        by_cases hac : strLeb a c = true
        · show sortedLe (b :: (if strLeb a c = true then a :: c :: t'
              else c :: insertLe a t')) = true
          rw [if_pos hac]
          show (strLeb b a && sortedLe (a :: c :: t')) = true
          rw [hba]
          have h3 : sortedLe (a :: c :: t') = true := by
            have h4 := hins
            rw [show insertLe a (c :: t') = a :: c :: t' from by
              show (if strLeb a c = true then a :: c :: t' else c :: insertLe a t') = _
              rw [if_pos hac]] at h4
            exact h4
          rw [h3]
          rfl
        · show sortedLe (b :: (if strLeb a c = true then a :: c :: t'
              else c :: insertLe a t')) = true
          rw [if_neg hac]
          show (strLeb b c && sortedLe (c :: insertLe a t')) = true
          have hbc : strLeb b c = true := by
            have h2 := h
            simp only [sortedLe, Bool.and_eq_true] at h2
            exact h2.1
          rw [hbc]
          have h4 := hins
          rw [show insertLe a (c :: t') = c :: insertLe a t' from by
            show (if strLeb a c = true then a :: c :: t' else c :: insertLe a t') = _
            rw [if_neg hac]] at h4
          rw [h4]
          rfl

theorem sortedLe_sortLe (l : List String) : sortedLe (sortLe l) = true := by
  induction l with
  | nil => rfl
  | cons a t ih => exact sortedLe_insertLe a (sortLe t) ih

theorem insertLe_perm (a : String) (l : List String) :
    List.Perm (insertLe a l) (a :: l) := by
  induction l with
  | nil => exact List.Perm.refl _
  | cons b t ih =>
    by_cases h : strLeb a b = true
    · rw [show insertLe a (b :: t) = a :: b :: t from by
        show (if strLeb a b = true then a :: b :: t else b :: insertLe a t) = _
        rw [if_pos h]]
    · rw [show insertLe a (b :: t) = b :: insertLe a t from by
        show (if strLeb a b = true then a :: b :: t else b :: insertLe a t) = _
        rw [if_neg h]]
      exact List.Perm.trans (List.Perm.cons b ih) (List.Perm.swap a b t)

theorem sortLe_perm (l : List String) : List.Perm (sortLe l) l := by
  induction l with
  | nil => exact List.Perm.refl _
  | cons a t ih =>
    have h1 : sortLe (a :: t) = insertLe a (sortLe t) := rfl
    rw [h1]
    exact List.Perm.trans (insertLe_perm a (sortLe t)) (List.Perm.cons a ih)

/-- The filter used by ConversionService.convertPDFtoPNG on the output
directory listing: files starting with the output basename and ending in
`.png`. -/
def pngListFilter (outBase : String) (f : String) : Bool :=
  strStarts f outBase && strEnds f ".png"

/-- The page files the worker sees: the output directory listing filtered to
the job's PNG pages and sorted lexicographically (conversionService.ts
`convertPDFtoPNG`: `.filter(...).sort()`). -/
def pngPageFiles (dirListing : List String) (outBase : String) : List String :=
  sortLe (dirListing.filter (pngListFilter outBase))

/-- ConversionService.convertPDFtoPNG after the pdftoppm subprocess ran over
the given output directory: collect the filtered, sorted page files; zero
output files is an error (wrapped by the function's catch block) even when
the subprocess exited cleanly. -/
def convertPDFtoPNG (dirListing : List String) (outBase : String) :
    Except String (List String) :=
  let pngFiles := pngPageFiles dirListing outBase
  if pngFiles.length = 0 then
    Except.error "PNG conversion failed: No PNG files were generated"
  else Except.ok pngFiles

/-- What gets uploaded to the object store for one job. -/
inductive UploadedObject
  | singleFile (objectName sourcePath : String)
  | zipArchive (objectName : String) (entries : List String)
deriving DecidableEq

/-- StorageService.uploadFilesAsZip: the archive holds each input file under
its basename, in input order. -/
def uploadFilesAsZip (filePaths : List String) (zipName : String) : UploadedObject :=
  UploadedObject.zipArchive zipName (filePaths.map basename)

/-- Result of the upload stage of one PNG job, feeding the completed ledger
write. -/
structure PNGJobOutcome where
  uploaded : UploadedObject
  contentType : String
  filename : String
  fileCount : Nat
deriving DecidableEq

/-- The ZIP object name used by processPNGConversion for multi-page results. -/
def pngZipName (jobId origName : String) : String :=
  jobId ++ "/" ++ basenameNoExt origName ++ ".zip"

/-- The upload step of processPNGConversion (worker.ts): exactly one page is
uploaded directly as an image; otherwise all pages are bundled into one ZIP. -/
def pngWorkerFinish (jobId origName : String) (pngFiles : List String) : PNGJobOutcome :=
  if pngFiles.length = 1 then
    let pngFile := pngFiles.headD ""
    { uploaded := UploadedObject.singleFile (jobId ++ "/" ++ basename pngFile) pngFile,
      contentType := "image/png", filename := basename pngFile,
      fileCount := pngFiles.length }
  else
    { uploaded := uploadFilesAsZip pngFiles (pngZipName jobId origName),
      contentType := "application/zip", filename := basename (pngZipName jobId origName),
      fileCount := pngFiles.length }

/-- The PNG conversion pipeline from the rasterizer's output directory to the
uploaded result. -/
def pngConversionOutcome (jobId origName : String) (dirListing : List String)
    (outBase : String) : Except String PNGJobOutcome :=
  (convertPDFtoPNG dirListing outBase).map (pngWorkerFinish jobId origName)

/-- C5: for a PNG job, the page files are all the rasterizer's matching
outputs in lexicographic (page) order; zero pages is a failure; exactly one
page is uploaded directly with content type image/png; more than one page is
bundled into one ZIP whose entries are all the pages in page order, with
content type application/zip and fileCount equal to the page count. -/
theorem C5_png_pipeline (dirListing : List String) (outBase jobId origName : String) :
    List.Perm (pngPageFiles dirListing outBase)
      (dirListing.filter (pngListFilter outBase)) ∧
    sortedLe (pngPageFiles dirListing outBase) = true ∧
    (pngPageFiles dirListing outBase = [] →
      pngConversionOutcome jobId origName dirListing outBase =
        Except.error "PNG conversion failed: No PNG files were generated") ∧
    (∀ f, pngPageFiles dirListing outBase = [f] →
      pngConversionOutcome jobId origName dirListing outBase =
        Except.ok { uploaded := UploadedObject.singleFile (jobId ++ "/" ++ basename f) f,
                    contentType := "image/png", filename := basename f, fileCount := 1 }) ∧
    (1 < (pngPageFiles dirListing outBase).length →
      pngConversionOutcome jobId origName dirListing outBase =
        Except.ok { uploaded := UploadedObject.zipArchive (pngZipName jobId origName)
                      ((pngPageFiles dirListing outBase).map basename),
                    contentType := "application/zip",
                    filename := basename (pngZipName jobId origName),
                    fileCount := (pngPageFiles dirListing outBase).length }) := by
  refine ⟨sortLe_perm _, sortedLe_sortLe _, ?_, ?_, ?_⟩
  · intro h
    unfold pngConversionOutcome convertPDFtoPNG
    rw [h]
    rfl
  · intro f h
    unfold pngConversionOutcome convertPDFtoPNG
    rw [h]
    rfl
  · intro h
    have h0 : ¬ (pngPageFiles dirListing outBase).length = 0 := by omega
    have h1 : ¬ (pngPageFiles dirListing outBase).length = 1 := by omega
    have h2 : pngConversionOutcome jobId origName dirListing outBase =
        Except.ok (pngWorkerFinish jobId origName (pngPageFiles dirListing outBase)) := by
      unfold pngConversionOutcome convertPDFtoPNG
      rw [if_neg h0]
      rfl
    rw [h2]
    unfold pngWorkerFinish
    rw [if_neg h1]
    rfl

def listingC5 : List String :=
  ["rep-2.png", "rep-1.png", "rep-3.png", "rep.pdf", "notes.txt"]

theorem C5_png_pipeline_witness :
    pngConversionOutcome "jid" "rep.docx" listingC5 "rep" =
      Except.ok { uploaded := UploadedObject.zipArchive "jid/rep.zip"
                    ["rep-1.png", "rep-2.png", "rep-3.png"],
                  contentType := "application/zip", filename := "rep.zip",
                  fileCount := 3 } ∧
    pngConversionOutcome "jid" "one.docx" ["one-1.png"] "one" =
      Except.ok { uploaded := UploadedObject.singleFile "jid/one-1.png" "one-1.png",
                  contentType := "image/png", filename := "one-1.png", fileCount := 1 } ∧
    pngConversionOutcome "jid" "rep.docx" ["rep.pdf"] "rep" =
      Except.error "PNG conversion failed: No PNG files were generated" := by
  refine ⟨?_, ?_, ?_⟩
  · exact ((C5_png_pipeline listingC5 "rep" "jid" "rep.docx").2.2.2.2
      (by decide)).trans (by rfl)
  · exact ((C5_png_pipeline ["one-1.png"] "one" "jid" "one.docx").2.2.2.1
      "one-1.png" (by decide)).trans (by rfl)
  · exact (C5_png_pipeline ["rep.pdf"] "rep" "jid" "rep.docx").2.2.1 (by decide)

/-- One file accepted by multer: its stored temp path and the client's
original filename. -/
structure UploadedFile where
  path : String
  originalname : String
deriving DecidableEq

/-- The upload allow-list from the multer fileFilter in src/server.ts. -/
def allowedExtensions : List String :=
  [".docx", ".pptx", ".doc", ".ppt", ".xlsx", ".xls"]

/-- The multer fileFilter predicate: the lower-cased extension of the
original filename must be on the allow-list. -/
def fileFilterAccepts (originalname : String) : Bool :=
  allowedExtensions.contains (lowerStr (extname originalname))

/-- The message of the Error the fileFilter raises on a disallowed extension. -/
def invalidFileTypeMsg : String :=
  "Invalid file type. Allowed types: .docx, .pptx, .doc, .ppt, .xlsx, .xls"

/-- The errors that can reach the Express error middleware from the upload
machinery: MulterError instances, or plain Error (as the fileFilter raises). -/
inductive AppError
  | multerError (code msg : String)
  | plainError (msg : String)
deriving DecidableEq

/-- A JSON error response. -/
structure ErrResponse where
  statusCode : Nat
  errorLabel : String
  message : String
deriving DecidableEq

/-- The error-handling middleware of src/server.ts: MulterError instances get
400 (with a dedicated body for LIMIT_FILE_SIZE); every other error — which
includes the fileFilter's plain Error — gets 500 "Internal server error"
with the error's message. -/
def errorMiddleware (maxMB : Nat) : AppError → ErrResponse
  | AppError.multerError code msg =>
    if code = "LIMIT_FILE_SIZE" then
      ⟨400, "File too large", "Maximum file size is " ++ toString maxMB ++ "MB"⟩
    else ⟨400, "File upload error", msg⟩
  | AppError.plainError msg => ⟨500, "Internal server error", msg⟩

/-- The response of POST /convert/png. -/
inductive PngRouteResp
  | errResp (r : ErrResponse)
  | noFile
  | accepted (jobId : String)
deriving DecidableEq

/-- HTTP status of each POST /convert/png response. -/
def pngRouteRespCode : PngRouteResp → Nat
  | PngRouteResp.errResp r => r.statusCode
  | PngRouteResp.noFile => 400
  | PngRouteResp.accepted _ => 202

/-- POST /convert/png including the multer stage: a file whose extension the
fileFilter rejects never reaches the handler — the request ends in the error
middleware with the fileFilter's plain Error and the state is untouched;
with no file the handler answers 400; otherwise it enqueues a PNG job and
answers 202. -/
def postConvertPNG (now : String) (st : SystemState) (file : Option UploadedFile)
    (jobId : String) (dpi : Nat) : SystemState × PngRouteResp :=
  match file with
  | none => (st, PngRouteResp.noFile)
  | some f =>
    if fileFilterAccepts f.originalname then
      (addPNGConversionJob now st
        { jobId := jobId, batchId := none, filePath := f.path,
          originalName := f.originalname, dpi := some dpi },
       PngRouteResp.accepted jobId)
    else
      (st, PngRouteResp.errResp (errorMiddleware 50 (AppError.plainError invalidFileTypeMsg)))

def sysState0 : SystemState := ⟨⟨[], []⟩, [], []⟩

/-- C8 counterexample: uploading `test.txt` is rejected before any enqueue
or ledger write, but the HTTP status is 500 — the fileFilter's plain Error
falls into the generic branch of the error middleware — not 400 as claimed. -/
theorem C8_counterexample :
    pngRouteRespCode
      (postConvertPNG "t0" sysState0 (some ⟨"/tmp/u1.txt", "test.txt"⟩) "j1" 150).2 = 500 ∧
    ¬ pngRouteRespCode
      (postConvertPNG "t0" sysState0 (some ⟨"/tmp/u1.txt", "test.txt"⟩) "j1" 150).2 = 400 ∧
    (postConvertPNG "t0" sysState0 (some ⟨"/tmp/u1.txt", "test.txt"⟩) "j1" 150).1 =
      sysState0 := by decide

/-- C8 (amended): the upload extension check is exactly the allow-list
{.docx, .pptx, .doc, .ppt, .xlsx, .xls}, compared case-insensitively; an
upload with any other extension is rejected before any conversion attempt and
before any queue entry or ledger record is created — but the response is the
error middleware's 500 "Internal server error" carrying the human-readable
message, not a 400. -/
theorem C8_upload_gate (now : String) (st : SystemState) (f : UploadedFile)
    (jobId : String) (dpi : Nat) :
    (fileFilterAccepts f.originalname = true ↔
      (lowerStr (extname f.originalname) = ".docx" ∨
       lowerStr (extname f.originalname) = ".pptx" ∨
       lowerStr (extname f.originalname) = ".doc" ∨
       lowerStr (extname f.originalname) = ".ppt" ∨
       lowerStr (extname f.originalname) = ".xlsx" ∨
       lowerStr (extname f.originalname) = ".xls")) ∧
    (fileFilterAccepts f.originalname = false →
      postConvertPNG now st (some f) jobId dpi =
        (st, PngRouteResp.errResp ⟨500, "Internal server error", invalidFileTypeMsg⟩)) := by
  constructor
  · simp [fileFilterAccepts, allowedExtensions, List.elem_iff]
  · intro h
    unfold postConvertPNG
    simp only [if_neg (show ¬ fileFilterAccepts f.originalname = true from by
      rw [h]; exact Bool.false_ne_true)]
    rfl

theorem C8_upload_gate_witness :
    postConvertPNG "t0" sysState0 (some ⟨"/tmp/u1.txt", "test.txt"⟩) "j9" 150 =
      (sysState0, PngRouteResp.errResp ⟨500, "Internal server error", invalidFileTypeMsg⟩) :=
  (C8_upload_gate "t0" sysState0 ⟨"/tmp/u1.txt", "test.txt"⟩ "j9" 150).2 (by decide)

/-- Request body fields of POST /convert/batch. -/
structure BatchReqBody where
  format : Option String
  dpi : Option Nat
deriving DecidableEq

/-- One entry of the `jobs` array in the 202 batch response. -/
structure BatchJobEntry where
  jobId : String
  filename : String
  status : String
deriving DecidableEq

/-- The response of POST /convert/batch. -/
inductive BatchPostResp
  | errResp (r : ErrResponse)
  | noFiles
  | accepted (batchId : String) (jobs : List BatchJobEntry)
deriving DecidableEq

/-- HTTP status of each POST /convert/batch response. -/
def batchPostRespCode : BatchPostResp → Nat
  | BatchPostResp.errResp r => r.statusCode
  | BatchPostResp.noFiles => 400
  | BatchPostResp.accepted _ _ => 202

/-- The enqueue loop of the batch handler: one enqueue per file, a PNG job
when the format field is the exact string "png", a PDF job otherwise. -/
def batchEnqueue (now batchId : String) (png : Bool) (dpi : Nat) :
    SystemState → List (UploadedFile × String) → SystemState
  | st, [] => st
  | st, (f, jobId) :: rest =>
    let st1 :=
      if png then
        addPNGConversionJob now st
          { jobId := jobId, batchId := some batchId, filePath := f.path,
            originalName := f.originalname, dpi := some dpi }
      else
        addPDFConversionJob now st
          { jobId := jobId, batchId := some batchId, filePath := f.path,
            originalName := f.originalname, dpi := none }
    batchEnqueue now batchId png dpi st1 rest

/-- POST /convert/batch including the multer stage (any file failing the
extension filter aborts in the error middleware): with no files the handler
answers 400; otherwise `format = req.body.format || 'pdf'` is read without
validation, every file is enqueued (PNG iff format is exactly "png", PDF for
every other value), and the handler answers 202 with one `queued` job entry
per file. -/
def postConvertBatch (now : String) (st : SystemState) (files : List UploadedFile)
    (jobIds : List String) (batchId : String) (body : BatchReqBody) :
    SystemState × BatchPostResp :=
  if files.any (fun f => !fileFilterAccepts f.originalname) then
    (st, BatchPostResp.errResp (errorMiddleware 50 (AppError.plainError invalidFileTypeMsg)))
  else if files = [] then (st, BatchPostResp.noFiles)
  else
    let format := body.format.getD "pdf"
    let dpi := body.dpi.getD 150
    let pairs := files.zip jobIds
    (batchEnqueue now batchId (format == "png") dpi st pairs,
     BatchPostResp.accepted batchId
       (pairs.map (fun p => ⟨p.2, p.1.originalname, "queued"⟩)))

def fileC6 : UploadedFile := ⟨"/tmp/u1.docx", "a.docx"⟩

/-- C6 counterexample: a batch request whose format field is "gif" (neither
"pdf" nor "png") is not rejected with a 4xx — the handler answers 202 and the
file is enqueued as a PDF job. -/
theorem C6_counterexample :
    batchPostRespCode (postConvertBatch "t0" sysState0 [fileC6] ["j1"] "b1"
      ⟨some "gif", none⟩).2 = 202 ∧
    (postConvertBatch "t0" sysState0 [fileC6] ["j1"] "b1" ⟨some "gif", none⟩).1.pdfQueue =
      [pdfQueueEntry { jobId := "j1", batchId := some "b1", filePath := "/tmp/u1.docx",
                       originalName := "a.docx", dpi := none }] := by decide

/-- C6 (amended): the batch format field is never validated — any value other
than the exact string "png" (malformed ones included) is treated as "pdf":
the request is accepted with 202 and the jobs are enqueued exactly as if the
format had been "pdf"; no 4xx validation error exists on this path. -/
theorem C6_format_not_validated (now : String) (st : SystemState)
    (files : List UploadedFile) (jobIds : List String) (batchId fmt : String)
    (dpi : Option Nat) (hne : files ≠ [])
    (hok : files.all (fun f => fileFilterAccepts f.originalname) = true)
    (hfmt : fmt ≠ "png") :
    batchPostRespCode
      (postConvertBatch now st files jobIds batchId ⟨some fmt, dpi⟩).2 = 202 ∧
    postConvertBatch now st files jobIds batchId ⟨some fmt, dpi⟩ =
      postConvertBatch now st files jobIds batchId ⟨some "pdf", dpi⟩ := by
  have hall : ∀ f ∈ files, fileFilterAccepts f.originalname = true := by
    simpa [List.all_eq_true] using hok
  have hgate : files.any (fun f => !fileFilterAccepts f.originalname) = false := by
    rw [List.any_eq_false]
    intro f hf
    simp [hall f hf]
  have h1 : (fmt == "png") = false := by
    simp [hfmt]
  have h2 : (("pdf" : String) == "png") = false := by decide
  constructor
  · unfold postConvertBatch
    rw [hgate]
    simp only [Bool.false_eq_true, if_false, if_neg hne]
    rfl
  · unfold postConvertBatch
    rw [hgate]
    simp only [Bool.false_eq_true, if_false, if_neg hne, Option.getD_some, h1, h2]

theorem C6_format_not_validated_witness :
    batchPostRespCode (postConvertBatch "t1" sysState0 [fileC6] ["j2"] "b2"
      ⟨some "docx", none⟩).2 = 202 :=
  (C6_format_not_validated "t1" sysState0 [fileC6] ["j2"] "b2" "docx" none
    (by decide) (by decide) (by decide)).1
